import Mathlib

/-!
Shallow embedding of the cjemu repository (a minimal 16-bit virtual CPU):
the ALU (`cjemu-runtime/src/alu.rs`), the memory banks
(`cjemu-runtime/src/ram.rs`, `cjemu-runtime/src/rom.rs`), the virtual
machine (`cjemu-runtime/src/virtual_machine.rs`) and the emulation
scheduler handle (`src/emu.rs`).  16-bit machine words are modelled as
`Nat` values below 65536, with wraparound made explicit by `% 65536`.
Rust functions returning `Option` keep that shape; functions whose body
is `todo!()` (which panics and returns no value) are modelled as
returning `none` for every input.
-/

/-- Mirror of `AluOutputs` from `cjemu-api/src/lib.rs`: a 16-bit result
value plus the flag bits. -/
structure AluOutputs where
  value : Nat
  carry_out : Bool
  zero : Bool
  negative : Bool
  overflow : Bool
  parity : Bool
  deriving Repr, DecidableEq

/-- Mirror of `AluOutputs::default()` (derived `Default`): zero value and
all flags cleared. -/
def AluOutputs.defaultOutputs : AluOutputs :=
  { value := 0, carry_out := false, zero := false, negative := false,
    overflow := false, parity := false }

namespace CJEmuAlu

/-- Embedding of `CJEmuAlu::add16` (`cjemu-runtime/src/alu.rs`).
The Rust code matches on `a.checked_add(b)`: when the unsigned sum fits in
16 bits the value is `a + b` with `overflow = false`; otherwise the value
is `b - (u16::MAX - a)` (16-bit wrapping subtraction; in this branch no
underflow occurs) with `overflow = true`.  `carry_out`, `negative` and
`parity` are hard-coded `false` (the Rust code marks two of them `TODO`),
and `zero` is `value == 0`. -/
def add16 (a b : Nat) : AluOutputs :=
  if a + b ≤ 65535 then
    { value := a + b, carry_out := false, zero := a + b == 0,
      negative := false, overflow := false, parity := false }
  else
    let value := (b + 65536 - (65535 - a)) % 65536
    { value := value, carry_out := false, zero := value == 0,
      negative := false, overflow := true, parity := false }

/-- The body of `CJEmuAlu::add16_carry` is `todo!()`: it panics and never
returns an `AluOutputs`. -/
def add16_carry (_a _b : Nat) (_carry : Bool) : Option AluOutputs := none

/-- The body of `CJEmuAlu::sub16` is `todo!()`. -/
def sub16 (_a _b : Nat) : Option AluOutputs := none

/-- The body of `CJEmuAlu::sub16_borrow` is `todo!()`. -/
def sub16_borrow (_a _b : Nat) (_borrow : Bool) : Option AluOutputs := none

/-- The body of `CJEmuAlu::neg16` is `todo!()`. -/
def neg16 (_a : Nat) : Option AluOutputs := none

/-- The body of `CJEmuAlu::inc16` is `todo!()`. -/
def inc16 (_a : Nat) : Option AluOutputs := none

/-- The body of `CJEmuAlu::pass16` is `todo!()`. -/
def pass16 (_a : Nat) : Option AluOutputs := none

/-- The body of `CJEmuAlu::and16` is `todo!()`. -/
def and16 (_a _b : Nat) : Option AluOutputs := none

/-- The body of `CJEmuAlu::or16` is `todo!()`. -/
def or16 (_a _b : Nat) : Option AluOutputs := none

/-- The body of `CJEmuAlu::xor16` is `todo!()`. -/
def xor16 (_a _b : Nat) : Option AluOutputs := none

/-- The body of `CJEmuAlu::complement` is `todo!()`. -/
def complement (_a : Nat) : Option AluOutputs := none

/-- The body of `CJEmuAlu::shift16l` is `todo!()`. -/
def shift16l (_a _b : Nat) : Option AluOutputs := none

/-- The body of `CJEmuAlu::shift16r` is `todo!()`. -/
def shift16r (_a _b : Nat) : Option AluOutputs := none

/-- The body of `CJEmuAlu::ushift16l` is `todo!()`. -/
def ushift16l (_a _b : Nat) : Option AluOutputs := none

/-- The body of `CJEmuAlu::ushift16r` is `todo!()`. -/
def ushift16r (_a _b : Nat) : Option AluOutputs := none

/-- The body of `CJEmuAlu::rot16l` is `todo!()`. -/
def rot16l (_a _b : Nat) : Option AluOutputs := none

/-- The body of `CJEmuAlu::rot16r` is `todo!()`. -/
def rot16r (_a _b : Nat) : Option AluOutputs := none

/-- The body of `CJEmuAlu::rot16l_carry` is `todo!()`. -/
def rot16l_carry (_a _b : Nat) (_carry : Bool) : Option AluOutputs := none

/-- The body of `CJEmuAlu::rot16r_carry` is `todo!()`. -/
def rot16r_carry (_a _b : Nat) (_carry : Bool) : Option AluOutputs := none

end CJEmuAlu

/-- One invocation of an ALU operation of the `Alu` trait, together with
its operands.  This enumerates every method of `impl Alu for CJEmuAlu`. -/
inductive AluCall where
  | add16 (a b : Nat)
  | add16_carry (a b : Nat) (carry : Bool)
  | sub16 (a b : Nat)
  | sub16_borrow (a b : Nat) (borrow : Bool)
  | neg16 (a : Nat)
  | inc16 (a : Nat)
  | pass16 (a : Nat)
  | and16 (a b : Nat)
  | or16 (a b : Nat)
  | xor16 (a b : Nat)
  | complement (a : Nat)
  | shift16l (a b : Nat)
  | shift16r (a b : Nat)
  | ushift16l (a b : Nat)
  | ushift16r (a b : Nat)
  | rot16l (a b : Nat)
  | rot16r (a b : Nat)
  | rot16l_carry (a b : Nat) (carry : Bool)
  | rot16r_carry (a b : Nat) (carry : Bool)
  deriving Repr, DecidableEq

/-- Evaluate one ALU invocation on `CJEmuAlu`: `some outputs` when the
Rust method returns, `none` when its body is `todo!()` (a panic). -/
def aluEval : AluCall → Option AluOutputs
  | .add16 a b => some (CJEmuAlu.add16 a b)
  | .add16_carry a b c => CJEmuAlu.add16_carry a b c
  | .sub16 a b => CJEmuAlu.sub16 a b
  | .sub16_borrow a b c => CJEmuAlu.sub16_borrow a b c
  | .neg16 a => CJEmuAlu.neg16 a
  | .inc16 a => CJEmuAlu.inc16 a
  | .pass16 a => CJEmuAlu.pass16 a
  | .and16 a b => CJEmuAlu.and16 a b
  | .or16 a b => CJEmuAlu.or16 a b
  | .xor16 a b => CJEmuAlu.xor16 a b
  | .complement a => CJEmuAlu.complement a
  | .shift16l a b => CJEmuAlu.shift16l a b
  | .shift16r a b => CJEmuAlu.shift16r a b
  | .ushift16l a b => CJEmuAlu.ushift16l a b
  | .ushift16r a b => CJEmuAlu.ushift16r a b
  | .rot16l a b => CJEmuAlu.rot16l a b
  | .rot16r a b => CJEmuAlu.rot16r a b
  | .rot16l_carry a b c => CJEmuAlu.rot16l_carry a b c
  | .rot16r_carry a b c => CJEmuAlu.rot16r_carry a b c

/-- Mirror of `Ram` (`cjemu-runtime/src/ram.rs`): a fixed capacity
`max_size` and a byte vector `data`.  Bytes are `Nat` values below 256. -/
structure Ram where
  max_size : Nat
  data : List Nat
  deriving Repr, DecidableEq

namespace Ram

/-- Embedding of `Ram::new(default, size)`: `data = vec![default; size]`. -/
def new (defaultByte size : Nat) : Ram :=
  { max_size := size, data := List.replicate size defaultByte }

/-- Invariant maintained by every `Ram` the Rust code can construct
(`Ram::new` allocates exactly `size` bytes and `set_byte` never resizes):
the vector length equals the declared capacity.  `byte` and `set_byte`
rely on it through `get_unchecked`. -/
def WF (r : Ram) : Prop := r.data.length = r.max_size

/-- Embedding of `ReadableMemory::size` for `Ram`. -/
def size (r : Ram) : Nat := r.max_size

/-- Embedding of `Ram::byte`: `None` when `address >= max_size`, otherwise
the stored byte (the Rust code reads it with `get_unchecked`, which is in
bounds whenever `WF` holds). -/
def byte (r : Ram) (address : Nat) : Option Nat :=
  if address ≥ r.max_size then none else some (r.data.getD address 0)

/-- Embedding of `Ram::set_byte`: `None` (and no mutation) when
`address >= max_size`, otherwise the byte at `address` is replaced and
`Some(())` is returned; the returned `Ram` is the post-state. -/
def set_byte (r : Ram) (address value : Nat) : Option Ram :=
  if address ≥ r.max_size then none
  else some { r with data := r.data.set address value }

end Ram

/-- Mirror of `Rom` (`cjemu-runtime/src/rom.rs`): identical storage to
`Ram` but with no write operation. -/
structure Rom where
  max_size : Nat
  data : List Nat
  deriving Repr, DecidableEq

namespace Rom

/-- Embedding of `Rom::new(default, size)`. -/
def new (defaultByte size : Nat) : Rom :=
  { max_size := size, data := List.replicate size defaultByte }

/-- Embedding of `ReadableMemory::size` for `Rom`. -/
def size (r : Rom) : Nat := r.max_size

/-- Embedding of `Rom::byte`: `None` when `address >= max_size`, otherwise
the stored byte. -/
def byte (r : Rom) (address : Nat) : Option Nat :=
  if address ≥ r.max_size then none else some (r.data.getD address 0)

end Rom

/-- Mirror of `CJEmuVirtualMachine`
(`cjemu-runtime/src/virtual_machine.rs`): the cached last ALU outputs,
the two 16-bit registers and the two memory banks.  The struct has no
instruction-pointer field. -/
structure CJEmuVirtualMachine where
  last_alu : AluOutputs
  reg_a : Nat
  reg_b : Nat
  rom : Rom
  ram : Ram
  deriving Repr, DecidableEq

namespace CJEmuVirtualMachine

/-- Embedding of `CJEmuVirtualMachine::new(rom_size, ram_size)`. -/
def new (rom_size ram_size : Nat) : CJEmuVirtualMachine :=
  { last_alu := AluOutputs.defaultOutputs, reg_a := 0, reg_b := 0,
    rom := Rom.new 0 rom_size, ram := Ram.new 0 ram_size }

/-- Embedding of `CJEmuVirtualMachine::perform_tick`.  The associated
error type `TickErrorTy` is `()` and the entire Rust body is `Ok(())`:
the tick succeeds unconditionally and mutates nothing, so the post-state
is the pre-state. -/
def perform_tick (vm : CJEmuVirtualMachine) :
    Except Unit CJEmuVirtualMachine :=
  Except.ok vm

end CJEmuVirtualMachine

/-- Mirror of `EmulationEvent` (`src/emu.rs`).  The `Cycle` variant also
carries a `ticks_per_second: f64` rate in Rust; the rate only paces the
wall-clock loop of the worker and is not modelled (floating point / real
time). -/
inductive EmulationEvent where
  | exit
  | tick
  | cycle (ticks : Nat)
  deriving Repr, DecidableEq

/-- State-machine model of `EmulationHandler` (`src/emu.rs`) as seen from
the controller: the `has_exit` flag, the list of events sent so far on
`event_sender` (in order), and the `join_handle` `Option`, which is
`some ()` while the worker thread has not been joined and `none` once
`join()` has been called on it. -/
structure EmulationHandler where
  has_exit : Bool
  sent_events : List EmulationEvent
  join_handle : Option Unit
  deriving Repr, DecidableEq

namespace EmulationHandler

/-- Embedding of `EmulationHandler::new`: the worker is spawned, no event
has been sent, `has_exit` is false and the join handle is present. -/
def new : EmulationHandler :=
  { has_exit := false, sent_events := [], join_handle := some () }

/-- Embedding of `EmulationHandler::exit`: when `has_exit` is already set
the body is skipped entirely (nothing is sent, nothing changes);
otherwise the flag is set, `EmulationEvent::Exit` is sent, and the join
handle is taken and joined (blocking until the worker finishes). -/
def exit (h : EmulationHandler) : EmulationHandler :=
  if h.has_exit then h
  else { has_exit := true,
         sent_events := h.sent_events ++ [EmulationEvent.exit],
         join_handle := none }

/-- Embedding of `EmulationHandler::tick`: sends `EmulationEvent::Tick`. -/
def tick (h : EmulationHandler) : EmulationHandler :=
  { h with sent_events := h.sent_events ++ [EmulationEvent.tick] }

/-- Embedding of `EmulationHandler::cycle`: sends `EmulationEvent::Cycle`. -/
def cycle (h : EmulationHandler) (ticks : Nat) : EmulationHandler :=
  { h with sent_events := h.sent_events ++ [EmulationEvent.cycle ticks] }

/-- Embedding of `impl Drop for EmulationHandler`: `drop` simply calls
`self.exit()`. -/
def dropHandler (h : EmulationHandler) : EmulationHandler := h.exit

end EmulationHandler

/-- Claim C1: code evaluation at the failing input.  The spec demands
`add16(a, b).value = (a + b) mod 65536`, but on overflow the code computes
`b - (u16::MAX - a)`, which is `a + b - 65535`, one too large:
`add16(0xFFFF, 0x0002).value` is `0x0002`, not the `0x0001` the claim
states (the `overflow` flag does match the claim). -/
theorem add16_wrap_off_by_one :
    (CJEmuAlu.add16 0xFFFF 0x0002).value = 0x0002 ∧
    (CJEmuAlu.add16 0xFFFF 0x0002).overflow = true ∧
    (0xFFFF + 0x0002) % 65536 = 0x0001 := by
  refine ⟨?_, ?_, ?_⟩ <;> decide

/-- Claim C2: for every well-formed RAM bank and in-bounds address,
`set_byte` then `byte` returns the written value; for every out-of-bounds
address, `byte` and `set_byte` fail with `none` on both banks (the RAM
`set_byte` fails before touching the data, so there is no post-state and
the contents are unchanged). -/
theorem mem_set_get_roundtrip_and_oob (ram : Ram) (rom : Rom)
    (hw : ram.WF) (a v : Nat) :
    (a < ram.size →
      ∃ ram', ram.set_byte a v = some ram' ∧ ram'.byte a = some v) ∧
    (a ≥ ram.size → ram.byte a = none ∧ ram.set_byte a v = none) ∧
    (a ≥ rom.size → rom.byte a = none) := by
  unfold Ram.WF at hw
  refine ⟨?_, ?_, ?_⟩
  · intro hlt
    unfold Ram.size at hlt
    refine ⟨{ ram with data := ram.data.set a v }, ?_, ?_⟩
    · unfold Ram.set_byte
      simp [Nat.not_le.mpr hlt]
    · simp [Ram.byte, show ¬ a ≥ ram.max_size from by omega,
        List.getElem?_set_eq_of_lt v (show a < ram.data.length by omega)]
  · intro hge
    unfold Ram.size at hge
    unfold Ram.byte Ram.set_byte
    simp [hge]
  · intro hge
    unfold Rom.size at hge
    unfold Rom.byte
    simp [hge]

/-- Claim C2 witness: a concrete 4-byte RAM and ROM with address 2 and
value 7. -/
theorem mem_set_get_roundtrip_and_oob_witness :
    (Ram.new 0 4).WF ∧
    ((2 < (Ram.new 0 4).size →
      ∃ ram', (Ram.new 0 4).set_byte 2 7 = some ram' ∧
        ram'.byte 2 = some 7) ∧
    (2 ≥ (Ram.new 0 4).size →
      (Ram.new 0 4).byte 2 = none ∧ (Ram.new 0 4).set_byte 2 7 = none) ∧
    (2 ≥ (Rom.new 0 4).size → (Rom.new 0 4).byte 2 = none)) :=
  ⟨rfl, mem_set_get_roundtrip_and_oob (Ram.new 0 4) (Rom.new 0 4) rfl 2 7⟩

/-- The virtual-machine state of the C3 scenario: a fresh machine whose
ROM holds the bytes `[0x01, 0x2A, 0x00]` (the `lda16` opcode and its two
operand bytes) starting at address 0. -/
def scenarioVM : CJEmuVirtualMachine :=
  { last_alu := AluOutputs.defaultOutputs, reg_a := 0, reg_b := 0,
    rom := { max_size := 3, data := [0x01, 0x2A, 0x00] },
    ram := Ram.new 0 0 }

/-- Claim C3: code evaluation at the failing input.  `perform_tick` on
the scenario machine succeeds but performs no fetch, decode or load: the
body of `CJEmuVirtualMachine::perform_tick` is `Ok(())`, so `reg_a`
stays 0 instead of becoming `0x002A`. -/
theorem perform_tick_lda16_not_implemented :
    CJEmuVirtualMachine.perform_tick scenarioVM = Except.ok scenarioVM ∧
    scenarioVM.reg_a = 0 ∧ scenarioVM.reg_a ≠ 0x002A := by
  refine ⟨rfl, rfl, ?_⟩
  decide

/-- Claim C4: code evaluation at the failing input.  On a machine whose
ROM size is 0 every fetch address is out of bounds, yet `perform_tick`
returns `Ok`; its error type `TickErrorTy` is `()`, so no `MemoryFault`
value even exists, and the tick is a no-op (the unchanged-state half of
the claim holds only because nothing at all happens). -/
theorem perform_tick_no_memory_fault :
    (CJEmuVirtualMachine.new 0 0).rom.size = 0 ∧
    CJEmuVirtualMachine.perform_tick (CJEmuVirtualMachine.new 0 0) =
      Except.ok (CJEmuVirtualMachine.new 0 0) :=
  ⟨rfl, rfl⟩

/-- Claim C5: for every ALU operation of `impl Alu for CJEmuAlu` and
every choice of operands, whenever the call returns outputs at all, the
`zero` flag is true exactly when the returned `value` is 0.  (`add16` is
the only operation that returns; the rest panic via `todo!()`.) -/
theorem alu_zero_iff_value_eq_zero (call : AluCall) (out : AluOutputs)
    (h : aluEval call = some out) : out.zero = true ↔ out.value = 0 := by
  cases call <;>
    simp only [aluEval, CJEmuAlu.add16_carry, CJEmuAlu.sub16,
      CJEmuAlu.sub16_borrow, CJEmuAlu.neg16, CJEmuAlu.inc16,
      CJEmuAlu.pass16, CJEmuAlu.and16, CJEmuAlu.or16, CJEmuAlu.xor16,
      CJEmuAlu.complement, CJEmuAlu.shift16l, CJEmuAlu.shift16r,
      CJEmuAlu.ushift16l, CJEmuAlu.ushift16r, CJEmuAlu.rot16l,
      CJEmuAlu.rot16r, CJEmuAlu.rot16l_carry, CJEmuAlu.rot16r_carry,
      Option.some.injEq, reduceCtorEq] at h
  case add16 a b =>
    subst h
    unfold CJEmuAlu.add16
    split
    · simp
    · simp

/-- Claim C5 witness: the `add16 0 0` call returns outputs with
`value = 0` and `zero = true`. -/
theorem alu_zero_iff_value_eq_zero_witness :
    aluEval (AluCall.add16 0 0) = some (CJEmuAlu.add16 0 0) ∧
    ((CJEmuAlu.add16 0 0).zero = true ↔ (CJEmuAlu.add16 0 0).value = 0) :=
  ⟨rfl, alu_zero_iff_value_eq_zero (AluCall.add16 0 0) (CJEmuAlu.add16 0 0) rfl⟩

/-- Claim C6: code evaluation at the failing input.  The unsigned sum
`0xFFFF + 0x0001` needs a 17th bit, yet `add16` hard-codes
`carry_out = false` (the Rust field is literally `carry_out: false`
with a `TODO` comment), so the claimed carry-out semantics fail. -/
theorem add16_carry_out_hardwired_false :
    0xFFFF + 0x0001 > 65535 ∧
    (CJEmuAlu.add16 0xFFFF 0x0001).carry_out = false := by
  refine ⟨?_, ?_⟩ <;> decide

/-- Claim C7: `add16` is commutative in every field of the returned
outputs, for 16-bit operands. -/
theorem add16_comm (a b : Nat) (ha : a < 65536) (hb : b < 65536) :
    CJEmuAlu.add16 a b = CJEmuAlu.add16 b a := by
  unfold CJEmuAlu.add16
  rcases le_or_lt (a + b) 65535 with hle | hgt
  · rw [if_pos hle, if_pos (by omega : b + a ≤ 65535), Nat.add_comm a b]
  · have h1 : ¬ a + b ≤ 65535 := by omega
    have h2 : ¬ b + a ≤ 65535 := by omega
    rw [if_neg h1, if_neg h2]
    have e1 : b + 65536 - (65535 - a) = a + b + 1 := by omega
    have e2 : a + 65536 - (65535 - b) = a + b + 1 := by omega
    simp only [e1, e2]

/-- Claim C7 witness: commutativity at the concrete operands
`0xFFFF` and `0x0002`. -/
theorem add16_comm_witness :
    (0xFFFF : Nat) < 65536 ∧ (0x0002 : Nat) < 65536 ∧
    CJEmuAlu.add16 0xFFFF 0x0002 = CJEmuAlu.add16 0x0002 0xFFFF :=
  ⟨by decide, by decide, add16_comm 0xFFFF 0x0002 (by decide) (by decide)⟩

/-- Claim C8: code evaluation at the failing input.  `rot16l` and
`rot16r` are `todo!()` in the source: rotating `0x0001` by 16 panics and
produces no outputs at all, so no rotate-by-16 identity (nor any modulo-16
reduction) holds on the code. -/
theorem rot16_by_16_not_implemented :
    CJEmuAlu.rot16l 0x0001 16 = none ∧ CJEmuAlu.rot16r 0x0001 16 = none :=
  ⟨rfl, rfl⟩

/-- Claim C9: on a handler that has not yet exited, a second `exit()` is
a no-op (the whole handler state, the sent-event list included, is
unchanged), and dropping the handler runs `exit()`: exactly one `Exit`
event is sent and the join handle of the worker is taken and joined, leaving
no orphaned thread in the model. -/
theorem exit_idempotent_and_drop_joins (h : EmulationHandler)
    (hx : h.has_exit = false) :
    h.exit.exit = h.exit ∧
    h.dropHandler = h.exit ∧
    h.dropHandler.sent_events = h.sent_events ++ [EmulationEvent.exit] ∧
    h.dropHandler.join_handle = none := by
  refine ⟨?_, rfl, ?_, ?_⟩
  · show h.exit.exit = h.exit
    unfold EmulationHandler.exit
    simp [hx]
  · unfold EmulationHandler.dropHandler EmulationHandler.exit
    simp [hx]
  · unfold EmulationHandler.dropHandler EmulationHandler.exit
    simp [hx]

/-- Claim C9 witness: the freshly constructed handler. -/
theorem exit_idempotent_and_drop_joins_witness :
    EmulationHandler.new.has_exit = false ∧
    (EmulationHandler.new.exit.exit = EmulationHandler.new.exit ∧
    EmulationHandler.new.dropHandler = EmulationHandler.new.exit ∧
    EmulationHandler.new.dropHandler.sent_events =
      EmulationHandler.new.sent_events ++ [EmulationEvent.exit] ∧
    EmulationHandler.new.dropHandler.join_handle = none) :=
  ⟨rfl, exit_idempotent_and_drop_joins EmulationHandler.new rfl⟩

/-- Claim C10: on every machine state, `perform_tick` succeeds and every
observable — registers A and B, the cached ALU outputs, and the full
contents of both memory banks — is exactly what it was before: the tick
is a pure no-op. -/
theorem perform_tick_total_noop (vm : CJEmuVirtualMachine) :
    ∃ vm', CJEmuVirtualMachine.perform_tick vm = Except.ok vm' ∧
      vm'.reg_a = vm.reg_a ∧ vm'.reg_b = vm.reg_b ∧
      vm'.last_alu = vm.last_alu ∧ vm'.rom = vm.rom ∧ vm'.ram = vm.ram :=
  ⟨vm, rfl, rfl, rfl, rfl, rfl, rfl⟩
